import Mathlib

/-!
Shallow embedding of the ESP32S3 notifications receiver core
(`src/notifications/notifications.c` and `src/bluetooth/bluetooth.c`).

Conventions of the embedding:
* C `int` variables are modelled as `Int`; C `size_t`/`uint16_t`/`uint8_t`
  values that are only ever non-negative are modelled as `Nat`.
* The C array `notification_t notifications[30]` is modelled as a total
  function `Int → NotifRec` (a C array indexed by an `int` expression; out
  of bounds indices read and write "junk" cells of the model, just as the
  C object would touch adjacent memory).
* C strings are modelled as the list of their bytes up to the first NUL.
* Calls into external collaborators (display updates, the RTC, the pairing
  screen, registered error callbacks, the advertising API) are modelled as
  emitted events; state that lives in this repository's two files is
  modelled explicitly.
-/

namespace ESP32Notif

/-! ## Notification store (`src/notifications/notifications.c`) -/

/-- One `notification_t` record: `app_name[32]`, `sender[64]`, `content[256]`,
`timestamp`, `is_read`.  String fields hold the bytes of the stored C string. -/
structure NotifRec where
  app_name : List Nat
  sender : List Nat
  content : List Nat
  timestamp : Nat
  is_read : Bool
deriving DecidableEq, Repr

/-- The all-zero record a freshly zero-initialised array cell holds. -/
def defaultRec : NotifRec := ⟨[], [], [], 0, false⟩

/-- `MAX_NOTIFICATIONS` from notifications.c. -/
def MAX_NOTIFICATIONS : Int := 30

/-- `DELETE_TIMEOUT` from notifications.c (20 ticks of the 100 ms timer). -/
def DELETE_TIMEOUT : Int := 20

/-- The static state of notifications.c: the array, `notification_count`,
`current_notification`, and the pending-deletion triple. -/
structure Store where
  arr : Int → NotifRec
  notification_count : Int
  current_notification : Int
  delete_pending : Bool
  delete_pending_index : Int
  delete_timer_counter : Int

/-- A single C array-cell assignment `a[i] = v`. -/
def writeAt {ι α : Type} [DecidableEq ι] (a : ι → α) (i : ι) (v : α) : ι → α :=
  fun j => if j = i then v else a j

/-- The C loop `for (i = start; i < start + n; i++) a[i] = a[i + 1];`,
iterated `n` times, exactly as both deletion and eviction run it. -/
def shiftLeftLoop (a : Int → NotifRec) (start : Int) : Nat → (Int → NotifRec)
  | 0 => a
  | n + 1 => shiftLeftLoop (writeAt a start (a (start + 1))) (start + 1) n

/-- `delete_current_notification` (gesture "swipe up"): starts a pending
deletion of the currently displayed notification. -/
def delete_current_notification (s : Store) : Store :=
  if s.notification_count = 0 then s
  else
    { s with delete_pending := true,
             delete_pending_index := s.current_notification,
             delete_timer_counter := 0 }

/-- `undo_deletion`: cancels a pending deletion without touching the sequence. -/
def undo_deletion (s : Store) : Store :=
  if s.delete_pending ∧ 0 ≤ s.delete_pending_index then
    { s with delete_pending := false,
             delete_pending_index := -1,
             delete_timer_counter := 0 }
  else s

/-- `complete_deletion`: removes the pending record, shifts the tail left,
decrements the count and re-clamps the cursor. -/
def complete_deletion (s : Store) : Store :=
  if ¬ s.delete_pending ∨ s.delete_pending_index < 0 then s
  else
    let idx := s.delete_pending_index
    let a := shiftLeftLoop s.arr idx (s.notification_count - 1 - idx).toNat
    let cnt := s.notification_count - 1
    let cur :=
      if cnt = 0 then 0
      else if cnt ≤ s.current_notification then cnt - 1
      else s.current_notification
    { arr := a, notification_count := cnt, current_notification := cur,
      delete_pending := false, delete_pending_index := -1,
      delete_timer_counter := 0 }

/-- `handle_delete_timeout`: one 100 ms tick of the delete timer; fires
`complete_deletion` once the counter reaches `DELETE_TIMEOUT`. -/
def handle_delete_timeout (s : Store) : Store :=
  if s.delete_pending then
    let s' := { s with delete_timer_counter := s.delete_timer_counter + 1 }
    if DELETE_TIMEOUT ≤ s'.delete_timer_counter then complete_deletion s' else s'
  else s

/-- `notifications_clear_all`: sets `notification_count = 0` and
`current_notification = 0`.  Note that the C function touches nothing else. -/
def notifications_clear_all (s : Store) : Store :=
  { s with notification_count := 0, current_notification := 0 }

/-- The record built from the `add` arguments: strings truncated by
`strncpy` to 31/63/255 bytes, the timestamp stored, `is_read = false`. -/
def addedRec (app sender content : List Nat) (ts : Nat) : NotifRec :=
  ⟨app.take 31, sender.take 63, content.take 255, ts, false⟩

/-- `notifications_add_notification_with_timestamp`: evicts the oldest
record when the store is full, then appends the new record, marks it
unread and moves the cursor onto it. -/
def notifications_add_notification_with_timestamp
    (app sender content : List Nat) (ts : Nat) (s : Store) : Store :=
  let s1 :=
    if MAX_NOTIFICATIONS ≤ s.notification_count then
      { s with arr := shiftLeftLoop s.arr 0 (s.notification_count - 1).toNat,
               notification_count := s.notification_count - 1,
               current_notification :=
                 if 0 < s.current_notification then s.current_notification - 1
                 else s.current_notification }
    else s
  { s1 with arr := writeAt s1.arr s1.notification_count
              (addedRec app sender content ts),
            notification_count := s1.notification_count + 1,
            current_notification := s1.notification_count }

/-- `mark_current_as_read`. -/
def mark_current_as_read (s : Store) : Store :=
  if 0 < s.notification_count then
    { s with arr := writeAt s.arr s.current_notification
               { (s.arr s.current_notification) with is_read := true } }
  else s

/-- `next_notification`: `(current + 1) % count` with C (truncating) `%`. -/
def next_notification (s : Store) : Store :=
  if 0 < s.notification_count then
    { s with current_notification :=
        Int.tmod (s.current_notification + 1) s.notification_count }
  else s

/-- `prev_notification`: `(current - 1 + count) % count` with C `%`. -/
def prev_notification (s : Store) : Store :=
  if 0 < s.notification_count then
    { s with current_notification :=
        (Int.tmod (s.current_notification - 1 + s.notification_count)
          s.notification_count) }
  else s

/-- `notifications_get_unread_count`: counts `!is_read` among the first
`notification_count` records. -/
def notifications_get_unread_count (s : Store) : Nat :=
  ((List.range s.notification_count.toNat).filter
    (fun i => ¬ (s.arr i).is_read)).length

/-- Iterated delete-timer ticks (`notifications_handle_timers` calls
`handle_delete_timeout` once per 100 ms period). -/
def tickN : Nat → Store → Store
  | 0, s => s
  | n + 1, s => tickN n (handle_delete_timeout s)

/-- The store as it is at boot: zeroed array, no records, no pending delete. -/
def emptyStore : Store :=
  ⟨fun _ => defaultRec, 0, 0, false, -1, 0⟩

/-- One user/protocol-level store operation, as dispatched by the gesture
handler, the packet parser and the timer loop. -/
inductive StoreOp where
  | add (app sender content : List Nat) (ts : Nat)
  | next
  | prev
  | markRead
  | requestDelete
  | undo
  | tick
  | clearAll
deriving DecidableEq, Repr

/-- Apply one store operation. -/
def applyOp (s : Store) : StoreOp → Store
  | .add app sender content ts =>
      notifications_add_notification_with_timestamp app sender content ts s
  | .next => next_notification s
  | .prev => prev_notification s
  | .markRead => mark_current_as_read s
  | .requestDelete => delete_current_notification s
  | .undo => undo_deletion s
  | .tick => handle_delete_timeout s
  | .clearAll => notifications_clear_all s

/-- Run a sequence of store operations left to right. -/
def runOps (s : Store) (ops : List StoreOp) : Store :=
  ops.foldl applyOp s

/-! ## BLE layer (`src/bluetooth/bluetooth.c`) -/

/-- `NOTIFICATION_BUFFER_SIZE` from bluetooth.c. -/
def NOTIFICATION_BUFFER_SIZE : Nat := 512

/-- `connection_status_t` from notifications.h. -/
inductive ConnStatus where
  | connStatusConnected
  | connStatusWeakSignal
  | connStatusConnecting
  | connStatusDisconnected
deriving DecidableEq, Repr

/-- `ble_state_t` from bluetooth.h. -/
inductive BleState where
  | stDisconnected
  | stAdvertising
  | stConnecting
  | stConnected
  | stPaired
deriving DecidableEq, Repr

/-- One observable call into an external collaborator: an error callback
(which bluetooth.c invokes only when registered), a display update, the
RTC, the pairing screen, or the advertising API. -/
inductive BtEvent where
  | malformedPacket (msg : String)
  | bufferOverflow (msg : String)
  | connectionDrop (msg : String)
  | statusChanged (st : ConnStatus)
  | rtcSetTime (ts : Nat)
  | showPasskey (code : Nat)
  | hidePasskey
  | advStartRequested
deriving DecidableEq, Repr

/-- The static state of bluetooth.c: connection/pairing state machine,
error-callback registration flags, and the reassembly buffer (modelled as a
total byte function plus `notification_buffer_len`), together with the
notification store the parser mutates. -/
structure BtState where
  current_state : BleState
  advertising_active : Bool
  current_conn : Option Nat
  pairing_in_progress : Bool
  pairing_passkey : Nat
  pairing_conn : Option Nat
  malformed_cb : Bool
  conn_drop_cb : Bool
  overflow_cb : Bool
  buffer : Nat → Nat
  buffer_len : Nat
  store : Store

/-- Little-endian 32-bit decode `b0 | b1 << 8 | b2 << 16 | b3 << 24`
(equal to the C expression for byte-valued inputs). -/
def le32 (b0 b1 b2 b3 : Nat) : Nat :=
  b0 + 256 * b1 + 65536 * b2 + 16777216 * b3

/-- The bytes a zero-initialised C char buffer yields as a string after
`memcpy`ing `l` into it: everything up to the first NUL byte. -/
def cstr (l : List Nat) : List Nat :=
  l.takeWhile (fun b => b ≠ 0)

/-- Declared total length `9 + app_len + title_len + text_len` of an
AddNotification packet. -/
def declaredLen (data : List Nat) : Nat :=
  9 + data.getD 2 0 + data.getD 3 0 + data.getD 4 0

/-- The app-name string the parser extracts (`memcpy` of at most
`min app_len 31` bytes into a zeroed `char app_name[32]`). -/
def extractApp (data : List Nat) : List Nat :=
  cstr ((data.drop 9).take (min (data.getD 2 0) 31))

/-- The title string the parser extracts. -/
def extractTitle (data : List Nat) : List Nat :=
  cstr ((data.drop (9 + data.getD 2 0)).take (min (data.getD 3 0) 63))

/-- The body string the parser extracts. -/
def extractText (data : List Nat) : List Nat :=
  cstr ((data.drop (9 + data.getD 2 0 + data.getD 3 0)).take
    (min (data.getD 4 0) 255))

/-- The little-endian timestamp at bytes 5..8 of an AddNotification packet. -/
def extractTs (data : List Nat) : Nat :=
  le32 (data.getD 5 0) (data.getD 6 0) (data.getD 7 0) (data.getD 8 0)

/-- Emit an error-callback event only when the callback is registered,
mirroring the C pattern `if (cb) cb(msg);`. -/
def emitIf (registered : Bool) (e : BtEvent) : List BtEvent :=
  if registered then [e] else []

/-- `parse_notification_packet`: decodes one complete message and
dispatches it (store mutation plus collaborator events). -/
def parse_notification_packet (data : List Nat) (s : BtState) :
    BtState × List BtEvent :=
  if data.length < 1 then
    (s, emitIf s.malformed_cb (.malformedPacket "Packet too short"))
  else if data.getD 0 0 = 5 then
    if data.length < 5 then
      (s, emitIf s.malformed_cb (.malformedPacket "Invalid time sync packet"))
    else
      (s, [.rtcSetTime (le32 (data.getD 1 0) (data.getD 2 0) (data.getD 3 0)
        (data.getD 4 0))])
  else if data.getD 0 0 = 1 then
    if data.length < 9 then
      (s, emitIf s.malformed_cb (.malformedPacket "Packet too short"))
    else if data.length < declaredLen data then
      (s, emitIf s.malformed_cb (.malformedPacket "Invalid packet lengths"))
    else
      ({ s with store := (notifications_add_notification_with_timestamp
           (extractApp data) (extractTitle data) (extractText data)
           (extractTs data) s.store) },
       [.statusChanged .connStatusConnected])
  else if data.getD 0 0 = 3 then
    ({ s with store := notifications_clear_all s.store }, [])
  else if data.getD 0 0 = 2 ∨ data.getD 0 0 = 4 then
    (s, [])
  else
    (s, emitIf s.malformed_cb (.malformedPacket "Unknown command"))

/-- Byte-wise `memcpy(buffer + off, chunk, chunk.length)`. -/
def bufWrite (buf : Nat → Nat) (off : Nat) : List Nat → (Nat → Nat)
  | [] => buf
  | b :: rest => bufWrite (writeAt buf off b) (off + 1) rest

/-- The first `n` bytes of the buffer, as handed to the parser. -/
def bufToList (buf : Nat → Nat) (n : Nat) : List Nat :=
  (List.range n).map buf

/-- Return value of the GATT write handler: the accepted length, or the
`BT_GATT_ERR(BT_ATT_ERR_INVALID_OFFSET)` rejection. -/
inductive WriteResult where
  | ok (len : Nat)
  | errInvalidOffset
deriving DecidableEq, Repr

/-- `on_notification_write`: rejects writes that would overflow the 512-byte
buffer; otherwise copies the chunk at `off`, sets
`notification_buffer_len = off + len`, and, when `off = 0`, parses the
buffer as a complete message and resets the length to 0. -/
def on_notification_write (off : Nat) (chunk : List Nat) (s : BtState) :
    WriteResult × BtState × List BtEvent :=
  if NOTIFICATION_BUFFER_SIZE < off + chunk.length then
    (.errInvalidOffset, s,
     emitIf s.overflow_cb (.bufferOverflow "Notification buffer overflow"))
  else
    let buf := bufWrite s.buffer off chunk
    let blen := off + chunk.length
    if off = 0 then
      let r := parse_notification_packet (bufToList buf blen)
        { s with buffer := buf, buffer_len := blen }
      (.ok chunk.length, { r.1 with buffer_len := 0 }, r.2)
    else
      (.ok chunk.length, { s with buffer := buf, buffer_len := blen }, [])

/-- `start_advertising`: a no-op success when advertising is already
active; otherwise asks the transport to advertise, marks advertising
active, enters `BLE_STATE_ADVERTISING` and shows the disconnected status.
The external `bt_le_adv_start` call is modelled on its success path. -/
def start_advertising (s : BtState) : BtState × List BtEvent :=
  if s.advertising_active then (s, [])
  else
    ({ s with advertising_active := true, current_state := .stAdvertising },
     [.advStartRequested, .statusChanged .connStatusDisconnected])

/-- The body of the `disconnected` connection callback up to (and not
including) its final `start_advertising()` call: drop the connection
reference, enter `BLE_STATE_DISCONNECTED`, clear the pairing session, show
the disconnected status, hide the pairing screen and report the drop. -/
def disconnectedCore (s : BtState) : BtState × List BtEvent :=
  ({ s with current_conn := none,
            current_state := .stDisconnected,
            pairing_in_progress := false,
            pairing_passkey := 0,
            pairing_conn := none },
   [.statusChanged .connStatusDisconnected, .hidePasskey] ++
     emitIf s.conn_drop_cb (.connectionDrop "Connection dropped"))

/-- The full `disconnected` connection callback: the core body followed by
`start_advertising()`. -/
def disconnected (s : BtState) : BtState × List BtEvent :=
  let r := disconnectedCore s
  let r2 := start_advertising r.1
  (r2.1, r.2 ++ r2.2)

/-- The POSIX `EINVAL` error number. -/
def EINVAL : Int := 22

/-- Modelled from the spec: `snprintf(code, len, "%06u", passkey)` from
libc (not part of this repository) — the decimal digits of the passkey,
zero-padded on the left to a minimum width of six, truncated to at most
`len - 1` bytes, followed by a terminating NUL byte. -/
def format06u (passkey : Nat) (len : Nat) : List Nat :=
  let digits := (Nat.digits 10 passkey).reverse.map (fun d => 48 + d)
  let full :=
    if digits.length < 6 then
      List.replicate (6 - digits.length) 48 ++ digits
    else digits
  full.take (len - 1) ++ [0]

/-- `get_pairing_code`: `-EINVAL` when no pairing is in progress or the
buffer is shorter than 7 bytes (in which case nothing is written);
otherwise formats the passkey with `snprintf "%06u"` and returns 0.  The
`Except` value models the out-buffer: `.error` means the buffer is left
untouched. -/
def get_pairing_code (s : BtState) (len : Nat) : Except Int (List Nat) :=
  if s.pairing_in_progress = false ∨ len < 7 then .error (-EINVAL)
  else .ok (format06u s.pairing_passkey len)

/-- A BLE state as at boot, with all three error callbacks registered (as
`main.c` does right after `init_bluetooth`). -/
def initBt : BtState :=
  ⟨.stDisconnected, false, none, false, 0, none, true, true, true,
   fun _ => 0, 0, emptyStore⟩

/-! ## Helper lemmas -/

/-- Pointwise behaviour of the left-shift loop: it copies every cell of the
window `[start, start + n)` from its right neighbour, reading the original
values because the loop writes strictly behind where it reads. -/
theorem shiftLeftLoop_spec (n : Nat) (a : Int → NotifRec) (start k : Int) :
    shiftLeftLoop a start n k =
      if start ≤ k ∧ k < start + (n : Int) then a (k + 1) else a k := by
  induction n generalizing a start with
  | zero =>
    rw [shiftLeftLoop, if_neg (by push_cast; omega)]
  | succ m ih =>
    rw [shiftLeftLoop, ih]
    simp only [writeAt]
    by_cases h2 : start + 1 ≤ k ∧ k < start + 1 + (m : Int)
    · rw [if_pos h2, if_neg (show ¬(k + 1 = start) by omega),
        if_pos (show start ≤ k ∧ k < start + ((m + 1 : Nat) : Int) by push_cast; omega)]
    · rw [if_neg h2]
      by_cases hks : k = start
      · rw [if_pos hks,
          if_pos (show start ≤ k ∧ k < start + ((m + 1 : Nat) : Int) by push_cast; omega),
          hks]
      · rw [if_neg hks,
          if_neg (show ¬(start ≤ k ∧ k < start + ((m + 1 : Nat) : Int)) by push_cast at h2 ⊢; omega)]

/-- Running the tick loop in two stages. -/
theorem tickN_add (a b : Nat) (s : Store) :
    tickN (a + b) s = tickN b (tickN a s) := by
  induction a generalizing s with
  | zero => rw [Nat.zero_add]; rfl
  | succ m ih =>
    have h : m + 1 + b = (m + b) + 1 := by omega
    rw [h, tickN, tickN, ih]

/-- While a deletion is pending and the timer stays strictly below the
timeout, ticking only advances the timer. -/
theorem tickN_pending (j : Nat) (s : Store) (hp : s.delete_pending = true)
    (hj : s.delete_timer_counter + (j : Int) < 20) :
    tickN j s = { s with delete_timer_counter :=
      s.delete_timer_counter + (j : Int) } := by
  induction j generalizing s with
  | zero => simp [tickN]
  | succ m ih =>
    rw [tickN]
    have h1 : handle_delete_timeout s =
        { s with delete_timer_counter := s.delete_timer_counter + 1 } := by
      unfold handle_delete_timeout
      rw [if_pos hp, if_neg (by simp only [DELETE_TIMEOUT]; push_cast at hj; omega)]
    rw [h1, ih _ (by simp [hp]) (by simp only []; push_cast at hj ⊢; omega)]
    simp only [Store.mk.injEq, true_and, and_true]
    push_cast
    ring

/-- The packet parser never touches the reassembly buffer or its length. -/
theorem parse_preserves_buffer (data : List Nat) (s : BtState) :
    (parse_notification_packet data s).1.buffer = s.buffer ∧
    (parse_notification_packet data s).1.buffer_len = s.buffer_len := by
  unfold parse_notification_packet
  split_ifs <;> simp

/-! ## Claim C1 -/

/-- A store holding one notification, on which a deletion was requested and
then `notifications_clear_all` was called while that deletion was pending. -/
def c1_state : Store :=
  notifications_clear_all
    (delete_current_notification
      (notifications_add_notification_with_timestamp [72] [73] [74] 1 emptyStore))

/-- Claim C1 is violated by the code: `notifications_clear_all` empties the
sequence (count and cursor become 0) but does NOT cancel the pending
deletion, so the 20th subsequent tick still fires `complete_deletion`,
which decrements `notification_count` to -1 (a negative length) and sets
the cursor to -2 — a dangling removal after `clear_all`. -/
theorem c1_clear_all_keeps_pending_deletion :
    c1_state.notification_count = 0 ∧
    c1_state.current_notification = 0 ∧
    c1_state.delete_pending = true ∧
    c1_state.delete_pending_index = 0 ∧
    (tickN 20 c1_state).notification_count = -1 ∧
    (tickN 20 c1_state).current_notification = -2 :=
  ⟨rfl, rfl, rfl, rfl, rfl, rfl⟩

/-! ## Claim C2 -/

/-- A complete 5-byte TimeSync message (tag 0x05, timestamp 2). -/
def c2_msg : List Nat := [5, 2, 0, 0, 0]

/-- Claim C2 is violated by the code: delivering the 5-byte TimeSync
message as one offset-0 write dispatches `rtcSetTime 2`, but delivering it
as two writes (bytes [0,3) at offset 0, then bytes [3,5) at offset 3)
parses only the 3-byte prefix — because `on_notification_write` parses as
soon as a chunk with offset 0 arrives and sets the buffer length to that
chunk's length alone — so the split delivery reports a malformed packet
and never dispatches the command. -/
theorem c2_split_write_parses_prefix_only :
    (on_notification_write 0 c2_msg initBt).2.2 = [.rtcSetTime 2] ∧
    (on_notification_write 0 (c2_msg.take 3) initBt).2.2 =
      [.malformedPacket "Invalid time sync packet"] ∧
    (on_notification_write 3 (c2_msg.drop 3)
      (on_notification_write 0 (c2_msg.take 3) initBt).2.1).2.2 = [] :=
  ⟨rfl, rfl, rfl⟩

/-! ## Claim C6 -/

/-- The operation sequence add; request-delete; clear-all; 20 ticks. -/
def c6_ops : List StoreOp :=
  [.add [72] [73] [74] 1, .requestDelete, .clearAll] ++ List.replicate 20 .tick

/-- Claim C6 is violated by the code: running add, request-delete,
clear-all and then twenty timer ticks from the empty store drives
`notification_count` to -1 (violating `0 ≤ length`) and the cursor to -2
(violating `cursor = 0` on an empty store). -/
theorem c6_invariant_violated_from_empty_store :
    (runOps emptyStore c6_ops).notification_count = -1 ∧
    (runOps emptyStore c6_ops).current_notification = -2 :=
  ⟨rfl, rfl⟩

/-! ## Claim C3 -/

/-- Claim C3: a write with `offset + len > 512` is rejected with the
ATT invalid-offset error, leaves the whole BLE state (buffer bytes,
`notification_buffer_len`, store) untouched, dispatches nothing, and the
only collaborator call is the registered buffer-overflow callback. -/
theorem c3_overflow_write_rejected (off : Nat) (chunk : List Nat) (s : BtState)
    (h : NOTIFICATION_BUFFER_SIZE < off + chunk.length)
    (hcb : s.overflow_cb = true) :
    on_notification_write off chunk s =
      (.errInvalidOffset, s,
       [.bufferOverflow "Notification buffer overflow"]) := by
  unfold on_notification_write emitIf
  rw [if_pos h, hcb]
  simp

/-- Witness for C3: the overflow theorem applied to a write of one byte at
offset 512 into the boot-time state. -/
theorem c3_overflow_write_rejected_witness :
    NOTIFICATION_BUFFER_SIZE < 512 + ([37] : List Nat).length ∧
    initBt.overflow_cb = true ∧
    on_notification_write 512 [37] initBt =
      (.errInvalidOffset, initBt,
       [.bufferOverflow "Notification buffer overflow"]) :=
  ⟨by decide, rfl, c3_overflow_write_rejected 512 [37] initBt (by decide) rfl⟩

/-! ## Claim C5 -/

/-- A reachable state whose reassembly buffer has high-water mark 10:
the boot state after a successful 9-byte write at offset 1. -/
def s10 : BtState :=
  (on_notification_write 1 [1, 1, 1, 1, 1, 1, 1, 1, 1] initBt).2.1

/-- Claim C5 is refuted on the code: from the reachable state with
`filled_len = 10`, the successful 2-byte write at offset 1 leaves
`filled_len = 3`, not `max 10 (1 + 2) = 10` — a successful write CAN
decrease `filled_len`, because the handler assigns `offset + len` instead
of taking a maximum. -/
theorem c5_filled_len_decreases_counterexample :
    s10.buffer_len = 10 ∧
    (on_notification_write 1 [7, 8] s10).1 = .ok 2 ∧
    (on_notification_write 1 [7, 8] s10).2.1.buffer_len = 3 ∧
    (on_notification_write 1 [7, 8] s10).2.1.buffer_len ≠
      max s10.buffer_len (1 + 2) :=
  ⟨rfl, rfl, rfl, by decide⟩

/-- Claim C5 as amended: a successful (non-overflowing) write copies the
chunk into the buffer at `off`, and afterwards `filled_len` equals exactly
`off + len` — not the max with its previous value — except that an
offset-0 write ends with `filled_len = 0` because the buffer is flushed to
the parser and reset. -/
theorem c5_successful_write_sets_len (off : Nat) (chunk : List Nat)
    (s : BtState) (h : off + chunk.length ≤ NOTIFICATION_BUFFER_SIZE) :
    (on_notification_write off chunk s).2.1.buffer =
      bufWrite s.buffer off chunk ∧
    (off ≠ 0 →
      (on_notification_write off chunk s).2.1.buffer_len = off + chunk.length) ∧
    (off = 0 → (on_notification_write off chunk s).2.1.buffer_len = 0) := by
  have hlt : ¬ (NOTIFICATION_BUFFER_SIZE < off + chunk.length) := by omega
  by_cases h0 : off = 0
  · subst h0
    simp only [Nat.zero_add] at hlt
    simp [on_notification_write, hlt, parse_preserves_buffer]
  · simp [on_notification_write, hlt, h0, parse_preserves_buffer]

/-- Witness for the amended C5: the 2-byte write at offset 1 into the boot
state copies the chunk and sets the high-water mark to 3. -/
theorem c5_successful_write_sets_len_witness :
    1 + ([7, 8] : List Nat).length ≤ NOTIFICATION_BUFFER_SIZE ∧
    ((on_notification_write 1 [7, 8] initBt).2.1.buffer =
       bufWrite initBt.buffer 1 [7, 8] ∧
     ((1 : Nat) ≠ 0 →
       (on_notification_write 1 [7, 8] initBt).2.1.buffer_len =
         1 + ([7, 8] : List Nat).length) ∧
     ((1 : Nat) = 0 → (on_notification_write 1 [7, 8] initBt).2.1.buffer_len = 0)) :=
  ⟨by decide, c5_successful_write_sets_len 1 [7, 8] initBt (by decide)⟩

/-! ## Claim C4 -/

/-- The parser rejects the message via the malformed-packet callback with
the invalid-lengths reason and leaves the state untouched. -/
def rejectsInvalidLengths (data : List Nat) (s : BtState) : Prop :=
  parse_notification_packet data s =
    (s, [.malformedPacket "Invalid packet lengths"])

/-- The parser accepts the AddNotification message: the extracted strings
and timestamp are added to the store and the display is told the link is
active; no error callback fires. -/
def acceptsAddPacket (data : List Nat) (s : BtState) : Prop :=
  parse_notification_packet data s =
    ({ s with store := (notifications_add_notification_with_timestamp
        (extractApp data) (extractTitle data) (extractText data)
        (extractTs data) s.store) },
     [.statusChanged .connStatusConnected])

/-- An AddNotification message of length 10 whose declared string lengths
are all 0, so `9 + A + T + B = 9 ≠ 10`: one trailing garbage byte. -/
def c4_data : List Nat := [1, 0, 0, 0, 0, 0, 0, 0, 0, 255]

/-- Claim C4 is refuted on the code: the length-10 AddNotification message
with `9 + A + T + B = 9 ≠ len` (a trailing byte) is NOT rejected — the
parser adds a notification to the store and reports no malformed packet,
because the C check only rejects `9 + A + T + B > len`. -/
theorem c4_trailing_bytes_accepted_counterexample :
    declaredLen c4_data ≠ c4_data.length ∧
    (parse_notification_packet c4_data initBt).1.store.notification_count = 1 ∧
    (parse_notification_packet c4_data initBt).2 =
      [.statusChanged .connStatusConnected] :=
  ⟨by decide, rfl, rfl⟩

/-- Claim C4 as amended: an AddNotification message (tag 0x01, `len ≥ 9`)
is accepted iff `9 + A + T + B ≤ len`; only `9 + A + T + B > len`
(truncation) is rejected via the malformed-packet callback without
mutating the store — trailing bytes beyond the declared strings are
silently ignored, not rejected. -/
theorem c4_length_check_is_inequality (data : List Nat) (s : BtState)
    (htag : data.getD 0 0 = 1) (hlen : 9 ≤ data.length)
    (hcb : s.malformed_cb = true) :
    (data.length < declaredLen data → rejectsInvalidLengths data s) ∧
    (declaredLen data ≤ data.length → acceptsAddPacket data s) := by
  constructor
  · intro hd
    unfold rejectsInvalidLengths parse_notification_packet
    rw [if_neg (by omega), if_neg (by rw [htag]; decide), if_pos htag,
      if_neg (by omega), if_pos hd]
    simp [emitIf, hcb]
  · intro hd
    unfold acceptsAddPacket parse_notification_packet
    rw [if_neg (by omega), if_neg (by rw [htag]; decide), if_pos htag,
      if_neg (by omega), if_neg (by omega)]

/-- A well-formed AddNotification message: `A = 1`, `T = B = 0`,
timestamp 0, app name "A", total length exactly 10. -/
def c4_good : List Nat := [1, 0, 1, 0, 0, 0, 0, 0, 0, 65]

/-- A truncated AddNotification message: `A = 5` declared but no string
bytes present (`9 + 5 > 9`), the spec's own length-validation example. -/
def c4_short : List Nat := [1, 0, 5, 0, 0, 0, 0, 0, 0]

/-- Witness for the amended C4: the exact-length message is accepted and
the truncated message is rejected. -/
theorem c4_length_check_is_inequality_witness :
    c4_good.getD 0 0 = 1 ∧ 9 ≤ c4_good.length ∧ initBt.malformed_cb = true ∧
    declaredLen c4_good ≤ c4_good.length ∧ acceptsAddPacket c4_good initBt ∧
    c4_short.getD 0 0 = 1 ∧ 9 ≤ c4_short.length ∧
    c4_short.length < declaredLen c4_short ∧
    rejectsInvalidLengths c4_short initBt :=
  ⟨rfl, by decide, rfl, by decide,
   (c4_length_check_is_inequality c4_good initBt rfl (by decide) rfl).2 (by decide),
   rfl, by decide, by decide,
   (c4_length_check_is_inequality c4_short initBt rfl (by decide) rfl).1 (by decide)⟩

/-! ## Claim C9 -/

/-- No pairing session remains: flag down, passkey zeroed, connection
reference dropped. -/
def pairingCleared (s : BtState) : Prop :=
  s.pairing_in_progress = false ∧ s.pairing_passkey = 0 ∧
    s.pairing_conn = none

/-- Everything the disconnect event guarantees: the handler passes through
`BLE_STATE_DISCONNECTED` with the connection reference dropped and the
pairing session cleared, the pairing session stays cleared after the
handler finishes, advertising is re-armed, and the display update, the
pairing-screen hide and the connection-drop report are all issued. -/
def disconnectPost (s : BtState) : Prop :=
  (disconnectedCore s).1.current_state = .stDisconnected ∧
  (disconnectedCore s).1.current_conn = none ∧
  pairingCleared (disconnectedCore s).1 ∧
  pairingCleared (disconnected s).1 ∧
  (disconnected s).1.advertising_active = true ∧
  BtEvent.statusChanged .connStatusDisconnected ∈ (disconnected s).2 ∧
  BtEvent.hidePasskey ∈ (disconnected s).2 ∧
  BtEvent.connectionDrop "Connection dropped" ∈ (disconnected s).2

/-- Claim C9: from every connection and pairing state, the disconnect
callback reaches `Disconnected`, clears the pairing session, notifies the
display, reports through the registered connection-drop callback, and
re-arms advertising. -/
theorem c9_disconnect_reaches_disconnected (s : BtState)
    (hcb : s.conn_drop_cb = true) : disconnectPost s := by
  unfold disconnectPost pairingCleared disconnected disconnectedCore
  unfold start_advertising emitIf
  by_cases ha : s.advertising_active <;> simp [ha, hcb]

/-- Witness for C9: a paired state with a live pairing session. -/
def pairedBt : BtState :=
  { initBt with
      current_state := .stPaired
      current_conn := some 1
      pairing_in_progress := true
      pairing_passkey := 123456
      pairing_conn := some 1 }

/-- Witness for C9: the theorem applied to the paired state with an
outstanding pairing session. -/
theorem c9_disconnect_reaches_disconnected_witness :
    pairedBt.conn_drop_cb = true ∧ disconnectPost pairedBt :=
  ⟨rfl, c9_disconnect_reaches_disconnected pairedBt rfl⟩

/-! ## Claim C10 -/

/-- The successful result of `get_pairing_code`: the formatted code is
returned, it is 7 bytes long (6 characters plus the NUL terminator), every
one of the six characters is an ASCII decimal digit, and reading those six
digits back as a decimal number (most significant first) gives exactly the
passkey — i.e. the passkey zero-padded to six digits. -/
def pairingCodeOk (s : BtState) (len : Nat) : Prop :=
  get_pairing_code s len = .ok (format06u s.pairing_passkey len) ∧
  (format06u s.pairing_passkey len).length = 7 ∧
  (format06u s.pairing_passkey len).getLast? = some 0 ∧
  (∀ c ∈ (format06u s.pairing_passkey len).take 6, 48 ≤ c ∧ c ≤ 57) ∧
  Nat.ofDigits 10 (((format06u s.pairing_passkey len).take 6).map
    (fun c => c - 48)).reverse = s.pairing_passkey

/-- Core property of the `"%06u"` formatting for passkeys below one
million and a buffer of at least 7 bytes. -/
theorem format06u_spec (p len : Nat) (hp : p < 1000000) (hl : 7 ≤ len) :
    (format06u p len).length = 7 ∧
    (format06u p len).getLast? = some 0 ∧
    (∀ c ∈ (format06u p len).take 6, 48 ≤ c ∧ c ≤ 57) ∧
    Nat.ofDigits 10 (((format06u p len).take 6).map
      (fun c => c - 48)).reverse = p := by
  have hdl : (Nat.digits 10 p).length ≤ 6 := by
    rcases Nat.eq_zero_or_pos p with h | h
    · subst h; simp
    · rw [Nat.digits_len 10 p (by norm_num) (by omega)]
      have hlog := Nat.log_lt_of_lt_pow (b := 10) (x := 6)
        (by omega : p ≠ 0) (by norm_num at hp ⊢; omega)
      omega
  have hfull : (if ((Nat.digits 10 p).reverse.map (fun d => 48 + d)).length < 6
        then List.replicate
          (6 - ((Nat.digits 10 p).reverse.map (fun d => 48 + d)).length) 48 ++
          (Nat.digits 10 p).reverse.map (fun d => 48 + d)
        else (Nat.digits 10 p).reverse.map (fun d => 48 + d)) =
      List.replicate (6 - (Nat.digits 10 p).length) 48 ++
        (Nat.digits 10 p).reverse.map (fun d => 48 + d) := by
    split_ifs with hsp
    · simp
    · simp only [List.length_map, List.length_reverse] at hsp
      have h6 : (Nat.digits 10 p).length = 6 := by omega
      rw [h6]
      simp
  have hlen6 : (List.replicate (6 - (Nat.digits 10 p).length) 48 ++
      (Nat.digits 10 p).reverse.map (fun d => 48 + d)).length = 6 := by
    simp only [List.length_append, List.length_replicate, List.length_map,
      List.length_reverse]
    omega
  have htake : (List.replicate (6 - (Nat.digits 10 p).length) 48 ++
      (Nat.digits 10 p).reverse.map (fun d => 48 + d)).take (len - 1) =
      List.replicate (6 - (Nat.digits 10 p).length) 48 ++
        (Nat.digits 10 p).reverse.map (fun d => 48 + d) :=
    List.take_of_length_le (by omega)
  have hfmt : format06u p len =
      (List.replicate (6 - (Nat.digits 10 p).length) 48 ++
        (Nat.digits 10 p).reverse.map (fun d => 48 + d)) ++ [0] := by
    simp only [format06u]
    rw [hfull, htake]
  rw [hfmt]
  have htake6 : ((List.replicate (6 - (Nat.digits 10 p).length) 48 ++
      (Nat.digits 10 p).reverse.map (fun d => 48 + d)) ++ [0]).take 6 =
      List.replicate (6 - (Nat.digits 10 p).length) 48 ++
        (Nat.digits 10 p).reverse.map (fun d => 48 + d) :=
    List.take_left' hlen6
  refine ⟨by rw [List.length_append, hlen6]; rfl, List.getLast?_concat _, ?_, ?_⟩
  · intro c hc
    rw [htake6] at hc
    rcases List.mem_append.mp hc with h | h
    · rw [List.eq_of_mem_replicate h]
      omega
    · rcases List.mem_map.mp h with ⟨d, hd, rfl⟩
      have : d < 10 :=
        Nat.digits_lt_base (by norm_num) (List.mem_reverse.mp hd)
      omega
  · rw [htake6, List.map_append, List.map_replicate, List.map_map,
      List.reverse_append, List.reverse_replicate]
    have hmapid : ((fun c => c - 48) ∘ fun d => 48 + d) = id := by
      funext x
      simp
    rw [hmapid, List.map_id, List.reverse_reverse]
    simp only [Nat.sub_self]
    have hzero : ∀ k, Nat.ofDigits 10 (List.replicate k (0 : Nat)) = 0 := by
      intro k
      induction k with
      | zero => simp [Nat.ofDigits]
      | succ n ih => rw [List.replicate_succ, Nat.ofDigits_cons, ih]
    have happ := @Nat.ofDigits_append 10 (Nat.digits 10 p)
      (List.replicate (6 - (Nat.digits 10 p).length) 0)
    rw [happ, hzero, Nat.ofDigits_digits]
    ring

/-- Claim C10: `get_pairing_code` returns `-EINVAL` and writes nothing
when no pairing is in progress or the buffer is shorter than 7 bytes;
otherwise, for a passkey below one million, it succeeds and writes the
passkey as exactly six zero-padded decimal digits plus a NUL terminator. -/
theorem c10_get_pairing_code_spec (s : BtState) (len : Nat) :
    (s.pairing_in_progress = false ∨ len < 7 →
      get_pairing_code s len = .error (-EINVAL)) ∧
    (s.pairing_in_progress = true → 7 ≤ len →
      s.pairing_passkey < 1000000 → pairingCodeOk s len) := by
  constructor
  · intro h
    unfold get_pairing_code
    rw [if_pos h]
  · intro h1 h2 h3
    have hok : get_pairing_code s len = .ok (format06u s.pairing_passkey len) := by
      unfold get_pairing_code
      rw [if_neg (by simp [h1]; omega)]
    have hspec := format06u_spec s.pairing_passkey len h3 h2
    exact ⟨hok, hspec.1, hspec.2.1, hspec.2.2.1, hspec.2.2.2⟩

/-- A state in the middle of a pairing handshake for passkey 1234. -/
def pairingBt : BtState :=
  { initBt with pairing_in_progress := true, pairing_passkey := 1234 }

/-- Witness for C10: the error arm on the boot state (no pairing) and the
success arm on a live pairing session with a 7-byte buffer. -/
theorem c10_get_pairing_code_spec_witness :
    (initBt.pairing_in_progress = false ∨ 7 < 7) ∧
    get_pairing_code initBt 7 = .error (-EINVAL) ∧
    pairingBt.pairing_in_progress = true ∧ 7 ≤ 7 ∧
    pairingBt.pairing_passkey < 1000000 ∧
    pairingCodeOk pairingBt 7 :=
  ⟨Or.inl rfl, (c10_get_pairing_code_spec initBt 7).1 (Or.inl rfl),
   rfl, le_refl 7, by decide,
   (c10_get_pairing_code_spec pairingBt 7).2 rfl (le_refl 7) (by decide)⟩

/-! ## Claim C7 -/

/-- Requesting a deletion and undoing it within `j < 20` ticks restores
the sequence, the length and the cursor, and leaves no pending deletion. -/
def undoRestores (s : Store) (j : Nat) : Prop :=
  (undo_deletion (tickN j (delete_current_notification s))).arr = s.arr ∧
  (undo_deletion (tickN j (delete_current_notification s))).notification_count =
    s.notification_count ∧
  (undo_deletion (tickN j (delete_current_notification s))).current_notification =
    s.current_notification ∧
  (undo_deletion (tickN j (delete_current_notification s))).delete_pending = false

/-- Requesting a deletion and letting 20 ticks elapse removes exactly the
record under the cursor: records before it are untouched, records after it
shift down one index, the length drops by one, and the cursor re-clamps to
`min cursor (newLength - 1)` (0 when the store became empty). -/
def timeoutDeletesAtCursor (s : Store) : Prop :=
  (tickN 20 (delete_current_notification s)).notification_count =
    s.notification_count - 1 ∧
  (tickN 20 (delete_current_notification s)).delete_pending = false ∧
  (∀ k : Int, k < s.current_notification →
    (tickN 20 (delete_current_notification s)).arr k = s.arr k) ∧
  (∀ k : Int, s.current_notification ≤ k → k < s.notification_count - 1 →
    (tickN 20 (delete_current_notification s)).arr k = s.arr (k + 1)) ∧
  (tickN 20 (delete_current_notification s)).current_notification =
    (if s.notification_count - 1 = 0 then 0
     else min s.current_notification (s.notification_count - 1 - 1))

/-- Claim C7: from any store whose cursor is a valid index, requesting a
deletion and undoing it before the timeout restores the store, while
requesting and waiting out the 20-tick timeout removes exactly the record
at the cursor with the shift/clamp postconditions. -/
theorem c7_undo_and_timeout_delete (s : Store) (j : Nat)
    (h0 : 0 ≤ s.current_notification)
    (h1 : s.current_notification < s.notification_count)
    (hj : j < 20) :
    undoRestores s j ∧ timeoutDeletesAtCursor s := by
  have hcnt : ¬ (s.notification_count = 0) := by omega
  have hdc : delete_current_notification s =
      { s with delete_pending := true,
               delete_pending_index := s.current_notification,
               delete_timer_counter := 0 } := by
    unfold delete_current_notification
    rw [if_neg hcnt]
  have ht : ∀ i : Nat, i < 20 →
      tickN i { s with delete_pending := true,
                       delete_pending_index := s.current_notification,
                       delete_timer_counter := 0 } =
      { s with delete_pending := true,
               delete_pending_index := s.current_notification,
               delete_timer_counter := (0 : Int) + (i : Int) } := by
    intro i hi
    exact tickN_pending i _ rfl (by show (0 : Int) + (i : Int) < 20; omega)
  constructor
  · unfold undoRestores
    rw [hdc, ht j hj]
    unfold undo_deletion
    rw [if_pos ⟨rfl, h0⟩]
    exact ⟨rfl, rfl, rfl, rfl⟩
  · unfold timeoutDeletesAtCursor
    rw [hdc]
    have h20 : tickN 20 { s with delete_pending := true,
                                 delete_pending_index := s.current_notification,
                                 delete_timer_counter := 0 } =
        complete_deletion { s with delete_pending := true,
                                   delete_pending_index := s.current_notification,
                                   delete_timer_counter := (0 : Int) + ((19 : Nat) : Int) + 1 } := by
      have e1 : (20 : Nat) = 19 + 1 := by norm_num
      rw [e1, tickN_add 19 1, ht 19 (by norm_num)]
      rfl
    rw [h20]
    unfold complete_deletion
    rw [if_neg (by
      push_neg
      exact ⟨rfl, h0⟩)]
    have htn : (((s.notification_count - 1 - s.current_notification).toNat : Nat) : Int) =
        s.notification_count - 1 - s.current_notification :=
      Int.toNat_of_nonneg (by omega)
    refine ⟨rfl, rfl, ?_, ?_, ?_⟩
    · intro k hk
      show shiftLeftLoop s.arr s.current_notification
        (s.notification_count - 1 - s.current_notification).toNat k = s.arr k
      rw [shiftLeftLoop_spec, if_neg (by omega)]
    · intro k hk1 hk2
      show shiftLeftLoop s.arr s.current_notification
        (s.notification_count - 1 - s.current_notification).toNat k = s.arr (k + 1)
      rw [shiftLeftLoop_spec, if_pos ⟨hk1, by rw [htn]; omega⟩]
    · show (if s.notification_count - 1 = 0 then 0
          else if s.notification_count - 1 ≤ s.current_notification
            then s.notification_count - 1 - 1
            else s.current_notification) =
        (if s.notification_count - 1 = 0 then 0
         else min s.current_notification (s.notification_count - 1 - 1))
      split_ifs <;> omega

/-- A valid two-element store with the cursor on the last record. -/
def twoStore : Store := ⟨fun _ => defaultRec, 2, 1, false, -1, 0⟩

/-- Witness for C7: the theorem applied to the two-element store with no
tick before the undo. -/
theorem c7_undo_and_timeout_delete_witness :
    0 ≤ twoStore.current_notification ∧
    twoStore.current_notification < twoStore.notification_count ∧
    (0 : Nat) < 20 ∧
    (undoRestores twoStore 0 ∧ timeoutDeletesAtCursor twoStore) :=
  ⟨by decide, by decide, by decide,
   c7_undo_and_timeout_delete twoStore 0 (by decide) (by decide) (by decide)⟩

/-! ## Claim C8 -/

/-- Postcondition of every add: the cursor lands on the new last index and
the record written there is exactly the one built from the arguments, with
`is_read = false`. -/
def addPostGeneral (s : Store) (app sender content : List Nat) (ts : Nat) : Prop :=
  (notifications_add_notification_with_timestamp app sender content ts s).current_notification =
    (notifications_add_notification_with_timestamp app sender content ts s).notification_count - 1 ∧
  (notifications_add_notification_with_timestamp app sender content ts s).arr
      ((notifications_add_notification_with_timestamp app sender content ts s).current_notification) =
    addedRec app sender content ts ∧
  ((notifications_add_notification_with_timestamp app sender content ts s).arr
      ((notifications_add_notification_with_timestamp app sender content ts s).current_notification)).is_read = false

/-- Postcondition of an add into a full store: still exactly 30 records,
record 0 evicted with every survivor shifted down one index in order, the
new record at index 29, and the cursor on index 29. -/
def addPostEviction (s : Store) (app sender content : List Nat) (ts : Nat) : Prop :=
  (notifications_add_notification_with_timestamp app sender content ts s).notification_count = 30 ∧
  (∀ k : Int, 0 ≤ k → k < 29 →
    (notifications_add_notification_with_timestamp app sender content ts s).arr k =
      s.arr (k + 1)) ∧
  (notifications_add_notification_with_timestamp app sender content ts s).arr 29 =
    addedRec app sender content ts ∧
  (notifications_add_notification_with_timestamp app sender content ts s).current_notification = 29

/-- Claim C8: adding to a store holding at most 30 records puts the cursor
on the new last index with the new record unread; adding to a full store
additionally evicts exactly the oldest record, shifts the rest down, and
keeps exactly 30 records. -/
theorem c8_add_postcondition (s : Store) (app sender content : List Nat)
    (ts : Nat) (h0 : 0 ≤ s.notification_count)
    (h30 : s.notification_count ≤ 30) :
    addPostGeneral s app sender content ts ∧
    (s.notification_count = 30 → addPostEviction s app sender content ts) := by
  by_cases hfull : MAX_NOTIFICATIONS ≤ s.notification_count
  · have hc : s.notification_count = 30 := by
      unfold MAX_NOTIFICATIONS at hfull
      omega
    have hadd : notifications_add_notification_with_timestamp app sender content ts s =
        { s with
            arr := writeAt (shiftLeftLoop s.arr 0 (s.notification_count - 1).toNat)
              (s.notification_count - 1) (addedRec app sender content ts),
            notification_count := s.notification_count - 1 + 1,
            current_notification := s.notification_count - 1 } := by
      unfold notifications_add_notification_with_timestamp
      rw [if_pos hfull]
    constructor
    · unfold addPostGeneral
      rw [hadd]
      refine ⟨by show s.notification_count - 1 = s.notification_count - 1 + 1 - 1; ring, ?_, ?_⟩
      · show writeAt (shiftLeftLoop s.arr 0 (s.notification_count - 1).toNat)
          (s.notification_count - 1) (addedRec app sender content ts)
          (s.notification_count - 1) = addedRec app sender content ts
        unfold writeAt
        rw [if_pos rfl]
      · show (writeAt (shiftLeftLoop s.arr 0 (s.notification_count - 1).toNat)
          (s.notification_count - 1) (addedRec app sender content ts)
          (s.notification_count - 1)).is_read = false
        unfold writeAt
        rw [if_pos rfl]
        rfl
    · intro _
      unfold addPostEviction
      rw [hadd, hc]
      have htn : (((30 : Int) - 1).toNat : Int) = 29 := by norm_num
      refine ⟨by norm_num, ?_, ?_, by norm_num⟩
      · intro k hk0 hk29
        show writeAt (shiftLeftLoop s.arr 0 ((30 : Int) - 1).toNat) (30 - 1)
          (addedRec app sender content ts) k = s.arr (k + 1)
        unfold writeAt
        rw [if_neg (by omega), shiftLeftLoop_spec, if_pos ⟨hk0, by rw [htn]; omega⟩]
      · show writeAt (shiftLeftLoop s.arr 0 ((30 : Int) - 1).toNat) (30 - 1)
          (addedRec app sender content ts) 29 = addedRec app sender content ts
        unfold writeAt
        rw [if_pos (by norm_num)]
  · have hadd : notifications_add_notification_with_timestamp app sender content ts s =
        { s with
            arr := writeAt s.arr s.notification_count (addedRec app sender content ts),
            notification_count := s.notification_count + 1,
            current_notification := s.notification_count } := by
      unfold notifications_add_notification_with_timestamp
      rw [if_neg hfull]
    constructor
    · unfold addPostGeneral
      rw [hadd]
      refine ⟨by show s.notification_count = s.notification_count + 1 - 1; ring, ?_, ?_⟩
      · show writeAt s.arr s.notification_count (addedRec app sender content ts)
          s.notification_count = addedRec app sender content ts
        unfold writeAt
        rw [if_pos rfl]
      · show (writeAt s.arr s.notification_count (addedRec app sender content ts)
          s.notification_count).is_read = false
        unfold writeAt
        rw [if_pos rfl]
        rfl
    · intro hc
      exfalso
      unfold MAX_NOTIFICATIONS at hfull
      omega

/-- A full store: 30 records, cursor on the last one. -/
def fullStore : Store := ⟨fun _ => defaultRec, 30, 29, false, -1, 0⟩

/-- Witness for C8: the theorem applied to the full store. -/
theorem c8_add_postcondition_witness :
    0 ≤ fullStore.notification_count ∧ fullStore.notification_count ≤ 30 ∧
    (addPostGeneral fullStore [65] [66] [67] 9 ∧
     (fullStore.notification_count = 30 → addPostEviction fullStore [65] [66] [67] 9)) :=
  ⟨by decide, by decide,
   c8_add_postcondition fullStore [65] [66] [67] 9 (by decide) (by decide)⟩

end ESP32Notif
